import Mathlib

/-!
Verification of the favicon discovery engine (`favicon/favicon.py`).

The Python source is shallowly embedded: pure helpers become Lean functions on
`String`/`List Char`, the two outbound HTTP calls are modelled by a `World`
oracle supplying their responses, and Python exceptions become `Except PyErr`.
The relevant parts of the Python standard library that the source calls
(`urllib.parse.urlsplit/urlunsplit/urljoin`, `os.path.splitext`, `str.split`,
`str.strip`, `list.sort(reverse=True)`, `re` patterns used by the code) are
modelled from the CPython 3.7 implementations the code runs against.
HTML parsing by BeautifulSoup is external to the source; a parsed document is
modelled as a list of `Tag` values (element name plus attribute map).
-/

namespace Favicon

/-! ## Python string primitives -/

/-- Lexicographic code-point comparison of character lists (Python `str < str`). -/
def strLtCore : List Char → List Char → Bool
  | [], [] => false
  | [], _ :: _ => true
  | _ :: _, [] => false
  | a :: as, b :: bs =>
    if a.toNat < b.toNat then true
    else if b.toNat < a.toNat then false
    else strLtCore as bs

/-- Python `a < b` on strings. -/
def pyStrLt (a b : String) : Bool := strLtCore a.data b.data

/-- Python `s.split(sep)` for a single-character separator: splits at every
occurrence, keeping empty pieces (`"a  b".split(" ") == ["a", "", "b"]`). -/
def splitChar (sep : Char) (l : List Char) : List (List Char) :=
  l.foldr
    (fun c acc =>
      match acc with
      | cur :: rest => if c == sep then [] :: cur :: rest else (c :: cur) :: rest
      | [] => [[c]])
    [[]]

/-- Split at every character satisfying `p`, keeping empty pieces
(the behaviour of `re.split` on a single-character class). -/
def splitPredChar (p : Char → Bool) (l : List Char) : List (List Char) :=
  l.foldr
    (fun c acc =>
      match acc with
      | cur :: rest => if p c then [] :: cur :: rest else (c :: cur) :: rest
      | [] => [[c]])
    [[]]

/-- Python whitespace characters (the ones `str.split()`/`str.strip()` use,
restricted to ASCII). -/
def pyIsSpace (c : Char) : Bool :=
  c == ' ' || c == '\t' || c == '\n' || c == '\x0d' || c == '\x0b' || c == '\x0c'

/-- Python `s.split()` (no argument): split on whitespace runs, no empty tokens. -/
def pySplitWs (s : String) : List String :=
  ((splitPredChar pyIsSpace s.data).filter (fun t => !t.isEmpty)).map List.asString

/-- Python `s.strip()` (ASCII whitespace). -/
def pyStrip (s : String) : String :=
  (((s.data.dropWhile pyIsSpace).reverse.dropWhile pyIsSpace).reverse).asString

/-- Python `s.lower()` (ASCII letters). -/
def pyLower (s : String) : String := (s.data.map Char.toLower).asString

/-- Is the first list a leading segment of the second? -/
def isPre : List Char → List Char → Bool
  | [], _ => true
  | _ :: _, [] => false
  | a :: as, b :: bs => a == b && isPre as bs

/-- Index of the first occurrence of `c`, if any. -/
def idxOf? (c : Char) : List Char → Option Nat
  | [] => none
  | a :: as => if a == c then some 0 else (idxOf? c as).map (· + 1)

/-- Python `c in s` for a character. -/
def containsC (c : Char) (l : List Char) : Bool := (idxOf? c l).isSome

/-- Index of the last occurrence of `c`, if any (Python `s.rfind(c)`). -/
def lastIdx? (c : Char) : List Char → Option Nat
  | [] => none
  | a :: as =>
    match lastIdx? c as with
    | some i => some (i + 1)
    | none => if a == c then some 0 else none

/-- Split at the first occurrence of `c`, removing it
(Python `s.split(c, 1)`); `none` when `c` does not occur. -/
def splitFirst (c : Char) : List Char → List Char × Option (List Char)
  | [] => ([], none)
  | a :: as =>
    if a == c then ([], some as)
    else
      let r := splitFirst c as
      (a :: r.1, r.2)

/-- Number of leading ASCII digits. -/
def digitCount : List Char → Nat
  | [] => 0
  | c :: cs => if c.isDigit then digitCount cs + 1 else 0

/-- Decimal value of a digit string. -/
def natOfDigits (l : List Char) : Nat :=
  l.foldl (fun a c => a * 10 + (c.toNat - 48)) 0

/-- Python `''.join(c for c in s if c.isdigit())` (ASCII digits). -/
def stripNonDigits (s : String) : String := (s.data.filter Char.isDigit).asString

inductive PyErr where
  | valueError
  | typeError
  | httpError (status : Nat)
  | netError
  | invalidURL
  | missingSchema
  | invalidSchema
deriving DecidableEq, Repr

/-- Python `int(s)` on the strings this code builds: raises `ValueError` on an
empty or non-digit string. -/
def pyInt (s : String) : Except PyErr Nat :=
  if s.data ≠ [] ∧ s.data.all Char.isDigit then .ok (natOfDigits s.data)
  else .error .valueError

/-- Python `a or b` for two strings (empty string is falsy). -/
def pyOrS (a b : String) : String := if a == "" then b else a

/-- Python `a or b` where each operand is an optional string
(`None` and `''` are falsy). -/
def pyOrOpt (a b : Option String) : Option String :=
  match a with
  | some s => if s == "" then b else some s
  | none => b

/-! ## `urllib.parse` model (CPython 3.7)

`urlsplit`, `urlunsplit` and `urljoin` as implemented in `urllib/parse.py`.
The `params` component (split from the path by `urlparse`) is not modelled:
it is empty for every URL without `';'` in the last path segment, and the
source only ever rebuilds it unchanged via `geturl`/`urlunparse`. -/

structure UrlSplit where
  scheme : String
  netloc : String
  path : String
  query : String
  fragment : String
deriving DecidableEq, Repr

/-- Characters allowed in a URL scheme (`urllib.parse.scheme_chars`). -/
def schemeChar (c : Char) : Bool :=
  c.isAlpha || c.isDigit || c == '+' || c == '-' || c == '.'

/-- Index of the first `'/'`, `'?'` or `'#'`, or the length if none occurs
(`urllib.parse._splitnetloc`). -/
def netlocDelim : List Char → Nat
  | [] => 0
  | a :: as => if a == '/' || a == '?' || a == '#' then 0 else netlocDelim as + 1

/-- `urllib.parse.urlsplit(url)` with the default (empty) scheme and without
the `Invalid IPv6 URL` check (see `rawSplitE`).  CPython 3.7 accepts the text
before the first colon as the scheme when it is literally `http` (the
fast path), or when it is made of scheme characters and the rest of the URL
is not a bare port number (empty or containing a non-digit) — so `a:1` and
`tel:123` parse with no scheme. -/
def rawSplit (url : String) : UrlSplit :=
  let l := url.data
  let sr : List Char × List Char :=
    match idxOf? ':' l with
    | some i =>
      if 0 < i && l.take i == "http".data then
        ("http".data, l.drop (i + 1))
      else if 0 < i && (l.take i).all schemeChar &&
          (l.drop (i + 1) == [] || !(l.drop (i + 1)).all Char.isDigit) then
        ((l.take i).map Char.toLower, l.drop (i + 1))
      else ([], l)
    | none => ([], l)
  let scheme := sr.1
  let nr : List Char × List Char :=
    match sr.2 with
    | '/' :: '/' :: tail =>
      let d := netlocDelim tail
      (tail.take d, tail.drop d)
    | rest => ([], rest)
  let fr : List Char × List Char :=
    match splitFirst '#' nr.2 with
    | (before, some f) => (before, f)
    | (before, none) => (before, [])
  let pq : List Char × List Char :=
    match splitFirst '?' fr.1 with
    | (b, some q) => (b, q)
    | (b, none) => (b, [])
  ⟨scheme.asString, nr.1.asString, pq.1.asString, pq.2.asString, fr.2.asString⟩

/-- `urllib.parse.urlsplit(url, scheme)`: the default scheme is used when the
URL does not carry one. -/
def urlsplitM (url : String) (scheme : String) : UrlSplit :=
  let r := rawSplit url
  if r.scheme == "" then { r with scheme := scheme } else r

/-- The `Invalid IPv6 URL` condition of `urlsplit`: the netloc holds `[`
without `]` or the converse. -/
def badBrackets (r : UrlSplit) : Bool :=
  (containsC '[' r.netloc.data && !containsC ']' r.netloc.data) ||
    (containsC ']' r.netloc.data && !containsC '[' r.netloc.data)

/-- `urlsplit` including its raising behaviour: unbalanced brackets in the
netloc raise `ValueError("Invalid IPv6 URL")`. -/
def rawSplitE (url : String) : Except PyErr UrlSplit :=
  if badBrackets (rawSplit url) then .error .valueError
  else .ok (rawSplit url)

/-- `urlsplit(url, scheme)` including its raising behaviour. -/
def urlsplitEM (url : String) (scheme : String) : Except PyErr UrlSplit :=
  match rawSplitE url with
  | .error e => .error e
  | .ok r => .ok (if r.scheme == "" then { r with scheme := scheme } else r)

/-- `urllib.parse.urlunsplit` (also the behaviour of `SplitResult.geturl`). -/
def urlunsplitM (u : UrlSplit) : String :=
  let url := u.path
  let url :=
    if u.netloc != "" || (url != "" && isPre ['/', '/'] url.data) then
      "//" ++ u.netloc ++ (if url != "" && !isPre ['/'] url.data then "/" ++ url else url)
    else url
  let url := if u.scheme != "" then u.scheme ++ ":" ++ url else url
  let url := if u.query != "" then url ++ "?" ++ u.query else url
  if u.fragment != "" then url ++ "#" ++ u.fragment else url

/-- `urllib.parse.uses_relative`. -/
def usesRelative : List String :=
  ["", "ftp", "http", "gopher", "nntp", "imap", "wais", "file", "https",
   "shttp", "mms", "prospero", "rtsp", "rtspu", "sftp", "svn", "svn+ssh",
   "ws", "wss"]

/-- `urllib.parse.uses_netloc`. -/
def usesNetloc : List String :=
  ["", "ftp", "http", "gopher", "nntp", "telnet", "imap", "wais", "file",
   "mms", "https", "shttp", "snews", "prospero", "rtsp", "rtspu", "rsync",
   "svn", "svn+ssh", "sftp", "nfs", "git", "git+ssh", "ws", "wss"]

/-- `segments[1:-1] = filter(None, segments[1:-1])`: drop empty interior
segments, keeping the first and last. -/
def filterMid : List String → List String
  | [] => []
  | [a] => [a]
  | a :: rest => a :: (rest.dropLast.filter (fun s => s != "")) ++ [rest.getLastD ""]

/-- Dot-segment resolution loop of `urljoin`. -/
def resolveSegs (segs : List String) : List String :=
  segs.foldl
    (fun acc seg =>
      if seg == ".." then acc.dropLast
      else if seg == "." then acc
      else acc ++ [seg])
    []

/-- `s.split('/')` returning strings. -/
def splitSlash (s : String) : List String := (splitChar '/' s.data).map List.asString

/-- `urllib.parse.urljoin(base, url)` (CPython 3.7, `params` not modelled). -/
def urljoinM (base url : String) : String :=
  if base == "" then url
  else if url == "" then base
  else
    let b := urlsplitM base ""
    let t := urlsplitM url b.scheme
    if t.scheme != b.scheme || !usesRelative.contains t.scheme then url
    else if usesNetloc.contains t.scheme && t.netloc != "" then urlunsplitM t
    else
      let netloc := if usesNetloc.contains t.scheme then b.netloc else t.netloc
      if t.path == "" then
        let query := if t.query == "" then b.query else t.query
        urlunsplitM ⟨t.scheme, netloc, b.path, query, t.fragment⟩
      else
        let baseSegs := splitSlash b.path
        let baseSegs := if baseSegs.getLastD "" != "" then baseSegs.dropLast else baseSegs
        let segs :=
          if isPre ['/'] t.path.data then splitSlash t.path
          else filterMid (baseSegs ++ splitSlash t.path)
        let rp := resolveSegs segs
        let rp :=
          if segs.getLastD "" == "." || segs.getLastD "" == ".." then rp ++ [""] else rp
        let p := String.intercalate "/" rp
        urlunsplitM ⟨t.scheme, netloc, if p == "" then "/" else p, t.query, t.fragment⟩

/-- `urljoin(base, url)` including its raising behaviour: it parses `base`
first and then `url` (with the base scheme as default), so an
`Invalid IPv6 URL` error from either parse propagates. -/
def urljoinE (base url : String) : Except PyErr String :=
  if base == "" then .ok url
  else if url == "" then .ok base
  else
    match rawSplitE base with
    | .error e => .error e
    | .ok _ =>
      match urlsplitEM url (rawSplit base).scheme with
      | .error e => .error e
      | .ok _ => .ok (urljoinM base url)

/-! ## `requests` URL preparation model

`requests_async` delegates request preparation to `requests` 2.x:
`PreparedRequest.prepare_url` validates the URL deterministically before any
network I/O, and `Session.get_adapter` rejects URLs whose scheme has no
mounted adapter.  Only the scheme/host-presence checks are modelled; port
range, IDNA and IPv6 validation inside `urllib3.util.parse_url` are not. -/

/-- Python `s.lstrip()` (ASCII whitespace). -/
def pyLStrip (s : String) : String := (s.data.dropWhile pyIsSpace).asString

/-- After a leading letter: scheme characters of `SCHEME_RE`
(`[a-zA-Z0-9+-]*`) followed by a colon. -/
def schemeColon3 : List Char → Bool
  | [] => false
  | c :: rest =>
    if c == ':' then true
    else if c.isAlpha || c.isDigit || c == '+' || c == '-' then schemeColon3 rest
    else false

/-- `urllib3.util.url.SCHEME_RE.search(url)`: the URL starts with a scheme
marker or a slash. -/
def schemeRe3 (l : List Char) : Bool :=
  match l with
  | [] => false
  | c :: rest => c == '/' || (c.isAlpha && schemeColon3 rest)

/-- Index of the first character ending the `_URI_RE` authority
(`[^\\/?#]*`). -/
def authDelim3 : List Char → Nat
  | [] => 0
  | a :: as =>
    if a == '\\' || a == '/' || a == '?' || a == '#' then 0 else authDelim3 as + 1

/-- Scheme and host of `urllib3.util.url.parse_url` (1.25.x), to the
fidelity `prepare_url` consumes: the optional scheme prefix, the optional
`//`-authority, the userinfo stripped at the last `@`, and the port stripped
at a trailing `:[0-9]{0,5}`. -/
def parseUrl3 (url : String) : Option String × Option String :=
  if url == "" then (none, none)
  else
    let l := if schemeRe3 url.data then url.data else '/' :: '/' :: url.data
    let sr : Option (List Char) × List Char :=
      match l with
      | c :: rest =>
        if c.isAlpha && schemeColon3 rest then
          match idxOf? ':' l with
          | some i => (some ((l.take i).map Char.toLower), l.drop (i + 1))
          | none => (none, l)
        else (none, l)
      | [] => (none, l)
    let ar : Option (List Char) × List Char :=
      match sr.2 with
      | '/' :: '/' :: t =>
        let d := authDelim3 t
        (some (t.take d), t.drop d)
      | rest => (none, rest)
    let host : Option String :=
      match ar.1 with
      | none => none
      | some auth =>
        if auth == [] then none
        else
          let hostPort :=
            match lastIdx? '@' auth with
            | some i => auth.drop (i + 1)
            | none => auth
          let host :=
            match lastIdx? ':' hostPort with
            | some i =>
              let after := hostPort.drop (i + 1)
              if after.length ≤ 5 && after.all Char.isDigit then hostPort.take i
              else hostPort
            | none => hostPort
          some host.asString
    (sr.1.map List.asString, host)

/-- The deterministic pre-I/O failure of `requests_async.get`/`head` on a
URL, if any: `prepare_url` passes a non-`http`-prefixed URL holding a colon
through unprepared, and `get_adapter` then raises `InvalidSchema`; otherwise
`parse_url` runs, a missing scheme raises `MissingSchema`, a missing or
empty host raises `InvalidURL`, and a scheme other than `http(s)` raises
`InvalidSchema` at adapter lookup. -/
def prepareUrlError (url : String) : Option PyErr :=
  let u := pyLStrip url
  if containsC ':' u.data && !isPre "http".data (pyLower u).data then
    some .invalidSchema
  else
    let sh := parseUrl3 u
    match sh.1 with
    | none => some .missingSchema
    | some _ =>
      match sh.2 with
      | none => some .invalidURL
      | some h =>
        if h == "" then some .invalidURL
        else if isPre "http://".data (pyLower u).data ||
            isPre "https://".data (pyLower u).data then none
        else some .invalidSchema

/-! ## `os.path.splitext` model (posixpath) -/

/-- `os.path.splitext(p)`: split off the extension of the last path component;
leading dots of the component do not start an extension. -/
def splitextM (p : String) : String × String :=
  let l := p.data
  match lastIdx? '.' l with
  | none => (p, "")
  | some di =>
    let si := match lastIdx? '/' l with | none => 0 | some s => s + 1
    if di < si then (p, "")
    else if ((l.drop si).take (di - si)).all (fun c => c == '.') then (p, "")
    else ((l.take di).asString, (l.drop di).asString)

/-! ## `SIZE_RE` model

`SIZE_RE = re.compile(r'(?P<width>\d{2,4})x(?P<height>\d{2,4})', re.IGNORECASE)`;
`search` finds the leftmost match, with the first digit group greedy and
backtracking from four digits down to two. -/

/-- The separator of `SIZE_RE` under `re.IGNORECASE`. -/
def isX (c : Char) : Bool := c == 'x' || c == 'X'

/-- Greedy match of the trailing `\d{2,4}` group. -/
def grpH (cs : List Char) : Option (List Char) :=
  let e := min 4 (digitCount cs)
  if 2 ≤ e then some (cs.take e) else none

/-- Try the leading `\d{2,4}` group at width `n`, backtracking down to two. -/
def tryW (cs : List Char) : Nat → Option (List Char × List Char)
  | 0 => none
  | 1 => none
  | n + 2 =>
    if n + 2 ≤ digitCount cs then
      match cs.drop (n + 2) with
      | c :: rest =>
        if isX c then
          match grpH rest with
          | some h => some (cs.take (n + 2), h)
          | none => tryW cs (n + 1)
        else tryW cs (n + 1)
      | [] => tryW cs (n + 1)
    else tryW cs (n + 1)

/-- Match `SIZE_RE` anchored at the start of `cs`. -/
def searchAt (cs : List Char) : Option (List Char × List Char) :=
  tryW cs (min 4 (digitCount cs))

/-- `SIZE_RE.search`: the two digit groups of the leftmost match. -/
def sizeSearch : List Char → Option (String × String)
  | [] => none
  | c :: rest =>
    match searchAt (c :: rest) with
    | some (w, h) => some (w.asString, h.asString)
    | none => sizeSearch rest

/-! ## Stable sort

Python's `sorted(..., key=k, reverse=True)` is a stable sort putting larger
keys first.  `insertR gt a l` inserts `a` in front of the first element it
strictly outranks, so equal keys keep their encounter order. -/

def insertR {α : Type} (gt : α → α → Bool) (a : α) : List α → List α
  | [] => [a]
  | b :: l => if gt a b then a :: b :: l else b :: insertR gt a l

def stableSortBy {α : Type} (gt : α → α → Bool) (l : List α) : List α :=
  l.foldl (fun acc a => insertR gt a acc) []

/-! ## Data model -/

/-- The `Icon` frozen dataclass: equality is structural on all four fields. -/
structure Icon where
  url : String
  width : Nat
  height : Nat
  format : String
deriving DecidableEq, Repr

/-- An HTML element as produced by BeautifulSoup: element name plus
attribute map (attribute values modelled as their raw text). -/
structure Tag where
  name : String
  attrs : List (String × String)
deriving DecidableEq, Repr

/-- `tag.get(key)`: the attribute value, or `None` when absent. -/
def Tag.get (t : Tag) (k : String) : Option String :=
  (t.attrs.find? (fun p => p.1 == k)).map (fun p => p.2)

/-- Does the tag carry the attribute (the `{'href': True}` filter)? -/
def Tag.hasAttr (t : Tag) (k : String) : Bool := (t.get k).isSome

/-- Keyword arguments of the outbound requests; `none` means the caller did
not pass the keyword (so `setdefault` fills it). -/
structure RequestKwargs where
  headers : Option (List (String × String))
  allow_redirects : Option Bool
  verify : Option Bool
deriving DecidableEq, Repr

inductive Method where
  | mGET
  | mHEAD
deriving DecidableEq, Repr

/-- An outbound HTTP request as issued by the code. -/
structure Request where
  method : Method
  url : String
  kwargs : RequestKwargs
deriving DecidableEq, Repr

/-- Response of the primary page fetch: final (post-redirect) URL, status,
and the HTML body as parsed by BeautifulSoup. -/
structure PageResponse where
  url : String
  status : Nat
  soup : List Tag
deriving Repr

/-- Response of the `HEAD` probe: final URL and status. -/
structure HeadResponse where
  url : String
  status : Nat
deriving DecidableEq, Repr

/-- The network: what `requests_async.get`/`requests_async.head` return for a
given URL and keyword arguments.  An `Except PyErr` error is a raised
connection/DNS exception. -/
structure World where
  page : String → RequestKwargs → Except PyErr PageResponse
  head : String → RequestKwargs → Except PyErr HeadResponse

/-- The dictionary `FaviconManager.get` returns: `{}`, a single icon's fields,
or the ranked `favicons` mapping indexed `0, 1, …`. -/
inductive GetResult where
  | empty
  | single (icon : Icon)
  | favicons (icons : List Icon)
deriving DecidableEq, Repr

namespace FaviconManager

/-- Modelled from the spec: the `LINK_RELS` list loaded from `settings.ini`
(the config file is not in the source tree); spec §4.1 step 3 gives the
accepted `<link rel>` values. -/
def LINK_RELS : List String :=
  ["icon", "shortcut icon", "apple-touch-icon", "apple-touch-icon-precomposed"]

/-- Modelled from the spec: the `META_NAMES` list loaded from `settings.ini`;
spec §4.1 step 3 gives the accepted `<meta name|property>` values. -/
def META_NAMES : List String := ["msapplication-TileImage", "og:image"]

/-- Modelled from the spec: the `HEADERS` dict loaded from `settings.ini`, a
realistic desktop browser `User-Agent`. -/
def HEADERS : List (String × String) :=
  [("User-Agent",
    "Mozilla/5.0 (Windows NT 10.0; Win64; x64) AppleWebKit/537.36 (KHTML, like Gecko) Chrome/79.0 Safari/537.36")]

/-- `validate_url`: `all([result.scheme, result.netloc])` after `urlparse`. -/
def validate_url (url : String) : Bool :=
  let result := rawSplit url
  result.scheme != "" && result.netloc != ""

/-- `is_absolute`: `bool(urlparse(url).netloc)`. -/
def is_absolute (url : String) : Bool := (rawSplit url).netloc != ""

/-- Python code: `sizes.split(' ')`, `size.sort(reverse=True)`,
`re.split(r'[x\xd7]', size[0])`. -/
def splitXs (s : String) : List String :=
  (splitPredChar (fun c => c == 'x' || c == '×') s.data).map List.asString

/-- `FaviconManager.dimensions`: compute a tag's icon size.  A `sizes`
attribute that is non-empty and not `'any'` is split on the space character,
the tokens are sorted descending and the first is split on `x`/`×`; unpacking
anything but two pieces raises `ValueError`.  Otherwise the first
`SIZE_RE` match of the `href`/`content` value is used, else `('0', '0')`.
Both pieces are stripped to their digits and passed to `int`, which raises
`ValueError` on an empty string. -/
def dimensions (tag : Tag) : Except PyErr (Nat × Nat) :=
  let sizes := (tag.get "sizes").getD ""
  let wh : Except PyErr (String × String) :=
    if sizes != "" && sizes != "any" then
      let size := stableSortBy (fun a b => pyStrLt b a)
        ((splitChar ' ' sizes.data).map List.asString)
      match splitXs (size.headD "") with
      | [w, h] => .ok (w, h)
      | _ => .error .valueError
    else
      match pyOrOpt (tag.get "href") (tag.get "content") with
      | none => .error .typeError
      | some filename =>
        match sizeSearch filename.data with
        | some (w, h) => .ok (w, h)
        | none => .ok ("0", "0")
  match wh with
  | .error e => .error e
  | .ok (w, h) =>
    match pyInt (stripNonDigits w) with
    | .error e => .error e
    | .ok wn =>
      match pyInt (stripNonDigits h) with
      | .error e => .error e
      | .ok hn => .ok (wn, hn)

/-- The `rel` filter `lambda r: r and r.lower() == rel`.  BeautifulSoup keeps
`rel` as a multi-valued attribute (the raw text split on whitespace) and its
matcher accepts a match on an individual value or on the re-joined whole. -/
def relMatches (t : Tag) (rel : String) : Bool :=
  match t.get "rel" with
  | none => false
  | some r =>
    let items := pySplitWs r
    items.any (fun s => pyLower s == rel) ||
      (pyLower (String.intercalate " " items) == rel && String.intercalate " " items != "")

/-- `meta_type = (meta_tag.get('name') or meta_tag.get('property') or '').lower()`. -/
def metaType (t : Tag) : String :=
  pyLower ((pyOrOpt (t.get "name") (t.get "property")).getD "")

/-- `is_absolute` including the raising behaviour of its `urlparse` call. -/
def is_absoluteE (url : String) : Except PyErr Bool :=
  match rawSplitE url with
  | .error e => .error e
  | .ok r => .ok (r.netloc != "")

/-- Candidate URL resolution inside the loop of `FaviconManager.tags`:
an absolute href is kept, a relative one is joined onto the page URL, and the
result is reparsed with the page's scheme as default.  Each `urlparse` (in
`is_absolute`, inside `urljoin`, on the page URL and on the result) can raise
`ValueError`, in the order the code performs them. -/
def parseCandidate (url href : String) : Except PyErr UrlSplit :=
  match is_absoluteE href with
  | .error e => .error e
  | .ok habs =>
    match (if habs then .ok href else urljoinE url href :
        Except PyErr String) with
    | .error e => .error e
    | .ok url_parsed =>
      match rawSplitE url with
      | .error e => .error e
      | .ok pr => urlsplitEM url_parsed pr.scheme

/-- The resolved candidate URL string stored in the `Icon`
(`url_parsed.geturl()`), or the `ValueError` the resolution raises. -/
def resolveCandidate (url href : String) : Except PyErr String :=
  match parseCandidate url href with
  | .error e => .error e
  | .ok parsed => .ok (urlunsplitM parsed)

/-- Body of the candidate loop in `FaviconManager.tags` for one tag:
`None` when the tag is skipped (empty href or `data:image/` URI); a raised
exception from `dimensions` propagates. -/
def processTag (url : String) (tag : Tag) : Except PyErr (Option Icon) :=
  let href := pyStrip (pyOrS ((tag.get "href").getD "") ((tag.get "content").getD ""))
  if href == "" || isPre "data:image/".data href.data then .ok none
  else
    match parseCandidate url href with
    | .error e => .error e
    | .ok parsed =>
      match dimensions tag with
      | .error e => .error e
      | .ok (w, h) =>
        let ext := (splitextM parsed.path).2
        .ok (some ⟨urlunsplitM parsed, w, h, pyLower ((ext.data.drop 1).asString)⟩)

/-- `icons.add(icon)` on the deduplicating collection.  The Python `set` is
unordered — its iteration order depends on per-process hash randomization of
the icons' string fields — and is modelled here as an insertion-ordered list
without duplicates, one fixed representative of the possible orders (the
orders agree as multisets; see the C8 theorem for what the sort keys do and
do not determine). -/
def addIcon (acc : List Icon) (i : Icon) : List Icon :=
  if i ∈ acc then acc else acc ++ [i]

/-- The candidate loop of `FaviconManager.tags` over the matched tags. -/
def collectIcons (url : String) : List Tag → List Icon → Except PyErr (List Icon)
  | [], acc => .ok acc
  | t :: rest, acc =>
    match processTag url t with
    | .error e => .error e
    | .ok none => collectIcons url rest acc
    | .ok (some i) => collectIcons url rest (addIcon acc i)

/-- `FaviconManager.tags`: select the matching `<link>`/`<meta>` tags and run
the candidate loop.  The code iterates the hash-ordered set union
`link_tags | meta_tags`; the model fixes one iteration order (links then
metas, in document order) — the program's own order varies across
processes. -/
def tags (url : String) (soup : List Tag) : Except PyErr (List Icon) :=
  let link_tags := soup.filter
    (fun t => t.name == "link" && t.hasAttr "href" && LINK_RELS.any (relMatches t))
  let meta_tags := soup.filter
    (fun t => t.name == "meta" && t.hasAttr "content" &&
      META_NAMES.any (fun n => metaType t == pyLower n))
  collectIcons url (link_tags ++ meta_tags) []

/-- `urlunparse((parsed.scheme, parsed.netloc, 'favicon.ico', '', '', ''))`. -/
def faviconUrlOf (url : String) : String :=
  let parsed := rawSplit url
  urlunsplitM ⟨parsed.scheme, parsed.netloc, "favicon.ico", "", ""⟩

/-- `FaviconManager.default`: `HEAD` the root `favicon.ico`; a 200 status
yields a dimensionless `ico` icon, any other status `None`; a raised network
error propagates.  Also returns the request it issued. -/
def default (w : World) (url : String) (kw : RequestKwargs) :
    Except PyErr (Option Icon) × List Request :=
  let favicon_url := faviconUrlOf url
  let req : Request := ⟨.mHEAD, favicon_url, kw⟩
  match w.head favicon_url kw with
  | .error e => (.error e, [req])
  | .ok response =>
    (.ok (if response.status == 200 then some ⟨response.url, 0, 0, "ico"⟩ else none), [req])

/-- Sort key of the ranking line:
`sorted(icons, key=lambda i: (i.width == i.height, i.width + i.height), reverse=True)`. -/
def iconKey (i : Icon) : Nat × Nat :=
  ((if i.width = i.height then 1 else 0), i.width + i.height)

/-- Strict lexicographic order on sort keys. -/
def pairLT (a b : Nat × Nat) : Bool :=
  decide (a.1 < b.1 ∨ (a.1 = b.1 ∧ a.2 < b.2))

/-- Does `a` strictly outrank `b`? -/
def gtIcon (a b : Icon) : Bool := pairLT (iconKey b) (iconKey a)

/-- The ranking line of `FaviconManager.get`: stable descending sort on
`(width == height, width + height)`. -/
def rankIcons (icons : List Icon) : List Icon := stableSortBy gtIcon icons

/-- The three `request_kwargs.setdefault(...)` lines of `FaviconManager.get`. -/
def fillDefaults (k : RequestKwargs) : RequestKwargs :=
  { headers := some (k.headers.getD HEADERS)
    allow_redirects := some (k.allow_redirects.getD true)
    verify := some (k.verify.getD false) }

/-- `FaviconManager.get`: fetch the page (`raise_for_status` turns a 4xx/5xx
final status into an error), probe the default icon, collect tag icons, rank,
and shape the result.  The second component is the list of HTTP requests the
call issued. -/
def get (w : World) (url : String) (biggest : Bool) (request_kwargs : RequestKwargs) :
    Except PyErr GetResult × List Request :=
  let kw := fillDefaults request_kwargs
  let pageReq : Request := ⟨.mGET, url, kw⟩
  match w.page url kw with
  | .error e => (.error e, [pageReq])
  | .ok response =>
    if 400 ≤ response.status ∧ response.status < 600 then
      (.error (.httpError response.status), [pageReq])
    else
      let d := default w response.url kw
      match d.1 with
      | .error e => (.error e, pageReq :: d.2)
      | .ok default_icon =>
        let icons0 := match default_icon with
          | some i => [i]
          | none => []
        match tags response.url response.soup with
        | .error e => (.error e, pageReq :: d.2)
        | .ok link_icons =>
          let icons := link_icons.foldl addIcon icons0
          let result := rankIcons icons
          let res := match result with
            | [] => GetResult.empty
            | top :: _ => if biggest then GetResult.single top else GetResult.favicons result
          (.ok res, pageReq :: d.2)

end FaviconManager

/-! ## Specification-side definitions (for refinement comparison) -/

/-- Strip both extracted pieces to their digits and parse them as integers
(the final step of the dimension algorithm in both of its branches). -/
def specParsePair (w h : String) : Except PyErr (Nat × Nat) :=
  match pyInt (stripNonDigits w) with
  | .error e => .error e
  | .ok wn =>
    match pyInt (stripNonDigits h) with
    | .error e => .error e
    | .ok hn => .ok (wn, hn)

/-- The dimension algorithm parameterised by the tokenizer of the `sizes`
value; the remaining steps follow the claimed algorithm: sort the tokens in
descending lexicographic order, split the first on the `x`/`×` separator into
the width/height pieces, otherwise search the `href`/`content` value with
`SIZE_RE` and default to zero, stripping non-digits before parsing. -/
def dimensionsBySplit (splitFn : String → List String) (tag : Tag) :
    Except PyErr (Nat × Nat) :=
  let sizes := (tag.get "sizes").getD ""
  let wh : Except PyErr (String × String) :=
    if sizes != "" && sizes != "any" then
      let toks := stableSortBy (fun a b => pyStrLt b a) (splitFn sizes)
      match FaviconManager.splitXs (toks.headD "") with
      | [w, h] => .ok (w, h)
      | _ => .error .valueError
    else
      match pyOrOpt (tag.get "href") (tag.get "content") with
      | none => .error .typeError
      | some filename =>
        match sizeSearch filename.data with
        | some (w, h) => .ok (w, h)
        | none => .ok ("0", "0")
  match wh with
  | .error e => .error e
  | .ok (w, h) => specParsePair w h

/-- The dimension algorithm as claim C2 words it: the `sizes` value is split
on WHITESPACE into tokens. -/
def dimensionsSpec (tag : Tag) : Except PyErr (Nat × Nat) :=
  dimensionsBySplit pySplitWs tag

/-- The dimension algorithm as C2 reads after amendment: the `sizes` value is
split on the ASCII space character (empty tokens kept), matching
`str.split(' ')`. -/
def dimensionsSpecAmended (tag : Tag) : Except PyErr (Nat × Nat) :=
  dimensionsBySplit (fun s => (splitChar ' ' s.data).map List.asString) tag

/-! ## Concrete inputs used by witnesses and counterexamples -/

/-- Keyword arguments with nothing passed by the caller. -/
def kwNone : RequestKwargs := ⟨none, none, none⟩

/-- A well-formed icon link tag. -/
def tagGood : Tag := ⟨"link", [("rel", "icon"), ("sizes", "64x64"), ("href", "/a.png")]⟩

/-- The `sizes` value whose whitespace/space tokenization differs:
`"32x32 16x16\t8x8"` has two space-separated pieces but three
whitespace-separated tokens. -/
def tagC2 : Tag := ⟨"link", [("rel", "icon"), ("sizes", "32x32 16x16\t8x8"), ("href", "/i.png")]⟩

/-- World for C3: the page holds one icon link, the `favicon.ico` probe
raises a network error. -/
def worldC3 : World :=
  { page := fun _ _ => .ok ⟨"http://example.com", 200, [tagGood]⟩
    head := fun _ _ => .error .netError }

/-- A world reproduces the HTTP library's deterministic pre-I/O URL
validation when a call on a URL that `prepare_url`/`get_adapter` rejects
returns exactly that error (raised before any network request). -/
def World.realistic (w : World) : Prop :=
  ∀ url kw e, prepareUrlError url = some e →
    w.page url kw = .error e ∧ w.head url kw = .error e

/-- World for C4: the library's URL preparation is applied faithfully; a URL
that survives it fetches an empty page (probe 404). -/
def worldReq : World :=
  { page := fun url _ =>
      match prepareUrlError url with
      | some e => .error e
      | none => .ok ⟨url, 200, [tagGood]⟩
    head := fun url _ =>
      match prepareUrlError url with
      | some e => .error e
      | none => .ok ⟨url, 404⟩ }

/-- Two distinct icons with identical ranking keys (same squareness, same
width+height): candidates an ordinary page can produce. -/
def iconTieA : Icon := ⟨"http://example.com/a.png", 32, 32, "png"⟩

/-- See `iconTieA`. -/
def iconTieB : Icon := ⟨"http://example.com/b.png", 32, 32, "png"⟩

/-- A tag whose `sizes` value has no `x` separator. -/
def tagC5 : Tag := ⟨"link", [("rel", "icon"), ("sizes", "large"), ("href", "/bad.png")]⟩

/-- World for C5: the page holds a well-formed icon link and a tag with a
malformed `sizes` value; the probe responds 404. -/
def worldC5 : World :=
  { page := fun _ _ => .ok ⟨"http://example.com", 200, [tagGood, tagC5]⟩
    head := fun u _ => .ok ⟨u, 404⟩ }

/-- World for the C6 witness: two link tags resolving to the same icon
tuple; the probe responds 404. -/
def worldC6 : World :=
  { page := fun _ _ => .ok
      ⟨"http://example.com", 200,
        [tagGood, ⟨"link", [("rel", "shortcut icon"), ("sizes", "64x64"), ("href", "a.png")]⟩]⟩
    head := fun u _ => .ok ⟨u, 404⟩ }

/-- World for the C3/C10 witnesses: page with one icon link, probe 404. -/
def worldOk : World :=
  { page := fun _ _ => .ok ⟨"http://example.com", 200, [tagGood]⟩
    head := fun u _ => .ok ⟨u, 404⟩ }

/-- A concrete icon list with one non-square and one square icon. -/
def iconsW : List Icon :=
  [⟨"http://example.com/wide.png", 300, 150, "png"⟩,
   ⟨"http://example.com/b.png", 16, 16, "png"⟩]

/-! ## Lemmas about the stable sort -/

theorem insertR_perm {α : Type} (gt : α → α → Bool) (a : α) (l : List α) :
    (insertR gt a l).Perm (a :: l) := by
  induction l with
  | nil => exact List.Perm.refl _
  | cons b l ih =>
    by_cases h : gt a b = true
    · simp [insertR, h]
    · simp only [insertR, h, if_false]
      exact (ih.cons b).trans (List.Perm.swap a b l)

theorem stableSortBy_aux_perm {α : Type} (gt : α → α → Bool) :
    ∀ (l acc : List α),
      (List.foldl (fun acc a => insertR gt a acc) acc l).Perm (acc ++ l)
  | [], acc => by simp
  | a :: l, acc => by
    simp only [List.foldl_cons]
    refine (stableSortBy_aux_perm gt l (insertR gt a acc)).trans ?_
    refine ((insertR_perm gt a acc).append_right l).trans ?_
    exact List.perm_middle.symm

theorem stableSortBy_perm {α : Type} (gt : α → α → Bool) (l : List α) :
    (stableSortBy gt l).Perm l := by
  simpa using stableSortBy_aux_perm gt l []

theorem mem_insertR {α : Type} (gt : α → α → Bool) (a x : α) (l : List α) :
    x ∈ insertR gt a l ↔ x = a ∨ x ∈ l := by
  rw [(insertR_perm gt a l).mem_iff]
  simp

theorem insertR_pairwise {α : Type} (gt : α → α → Bool)
    (hasym : ∀ x y, gt x y = true → gt y x = false)
    (hflip : ∀ x y z, gt x y = true → gt z y = false → gt z x = false)
    (a : α) :
    ∀ l : List α, l.Pairwise (fun u v => gt v u = false) →
      (insertR gt a l).Pairwise (fun u v => gt v u = false)
  | [], _ => by simp [insertR]
  | b :: l, h => by
    rcases List.pairwise_cons.mp h with ⟨hb, hl⟩
    by_cases hab : gt a b = true
    · simp only [insertR, hab, if_true]
      refine List.pairwise_cons.mpr ⟨?_, h⟩
      intro c hc
      rcases List.mem_cons.mp hc with rfl | hcl
      · exact hasym a c hab
      · exact hflip a b c hab (hb c hcl)
    · simp only [insertR, hab, if_false]
      refine List.pairwise_cons.mpr ⟨?_, insertR_pairwise gt hasym hflip a l hl⟩
      intro c hc
      rcases (mem_insertR gt a c l).mp hc with rfl | hcl
      · simpa using hab
      · exact hb c hcl

theorem stableSortBy_aux_pairwise {α : Type} (gt : α → α → Bool)
    (hasym : ∀ x y, gt x y = true → gt y x = false)
    (hflip : ∀ x y z, gt x y = true → gt z y = false → gt z x = false) :
    ∀ (l acc : List α), acc.Pairwise (fun u v => gt v u = false) →
      (List.foldl (fun acc a => insertR gt a acc) acc l).Pairwise
        (fun u v => gt v u = false)
  | [], _, h => by simpa using h
  | a :: l, acc, h => by
    simp only [List.foldl_cons]
    exact stableSortBy_aux_pairwise gt hasym hflip l _
      (insertR_pairwise gt hasym hflip a acc h)

theorem stableSortBy_pairwise {α : Type} (gt : α → α → Bool)
    (hasym : ∀ x y, gt x y = true → gt y x = false)
    (hflip : ∀ x y z, gt x y = true → gt z y = false → gt z x = false)
    (l : List α) :
    (stableSortBy gt l).Pairwise (fun u v => gt v u = false) :=
  stableSortBy_aux_pairwise gt hasym hflip l [] (by simp)

theorem pairLT_true_iff (a b : Nat × Nat) :
    FaviconManager.pairLT a b = true ↔ a.1 < b.1 ∨ (a.1 = b.1 ∧ a.2 < b.2) := by
  simp [FaviconManager.pairLT]

theorem pairLT_false_iff (a b : Nat × Nat) :
    FaviconManager.pairLT a b = false ↔ ¬(a.1 < b.1 ∨ (a.1 = b.1 ∧ a.2 < b.2)) := by
  simp [FaviconManager.pairLT]

theorem gtIcon_asym (x y : Icon) :
    FaviconManager.gtIcon x y = true → FaviconManager.gtIcon y x = false := by
  show FaviconManager.pairLT _ _ = true → FaviconManager.pairLT _ _ = false
  rw [pairLT_true_iff, pairLT_false_iff]
  omega

theorem gtIcon_flip (x y z : Icon) :
    FaviconManager.gtIcon x y = true → FaviconManager.gtIcon z y = false →
      FaviconManager.gtIcon z x = false := by
  show FaviconManager.pairLT _ _ = true → FaviconManager.pairLT _ _ = false →
    FaviconManager.pairLT _ _ = false
  rw [pairLT_true_iff, pairLT_false_iff, pairLT_false_iff]
  omega

theorem rankIcons_perm (l : List Icon) : (FaviconManager.rankIcons l).Perm l :=
  stableSortBy_perm FaviconManager.gtIcon l

theorem rankIcons_pairwise (l : List Icon) :
    (FaviconManager.rankIcons l).Pairwise
      (fun u v => FaviconManager.gtIcon v u = false) :=
  stableSortBy_pairwise FaviconManager.gtIcon gtIcon_asym gtIcon_flip l

theorem filter_insertR_key (K : Nat × Nat) (a : Icon) :
    ∀ l : List Icon, l.Pairwise (fun u v => FaviconManager.gtIcon v u = false) →
      (insertR FaviconManager.gtIcon a l).filter
          (fun x => FaviconManager.iconKey x == K) =
        l.filter (fun x => FaviconManager.iconKey x == K) ++
          (if FaviconManager.iconKey a == K then [a] else [])
  | [], _ => by
    by_cases hpa : (FaviconManager.iconKey a == K) = true <;>
      simp [insertR, hpa]
  | b :: l, h => by
    rcases List.pairwise_cons.mp h with ⟨hb, hl⟩
    by_cases hab : FaviconManager.gtIcon a b = true
    · rw [show insertR FaviconManager.gtIcon a (b :: l) = a :: b :: l from by
        simp [insertR, hab]]
      have h1 : FaviconManager.pairLT (FaviconManager.iconKey b)
          (FaviconManager.iconKey a) = true := hab
      by_cases hpa : (FaviconManager.iconKey a == K) = true
      · have hKa : FaviconManager.iconKey a = K := by simpa using hpa
        have hempty : (b :: l).filter (fun x => FaviconManager.iconKey x == K) = [] := by
          rw [List.filter_eq_nil_iff]
          intro c hc
          simp only [beq_iff_eq]
          intro heq
          rw [← hKa] at heq
          rw [pairLT_true_iff] at h1
          rcases List.mem_cons.mp hc with rfl | hcl
          · rw [Prod.ext_iff] at heq
            omega
          · have h2 : FaviconManager.pairLT (FaviconManager.iconKey b)
                (FaviconManager.iconKey c) = false := hb c hcl
            rw [pairLT_false_iff] at h2
            rw [Prod.ext_iff] at heq
            omega
        rw [List.filter_cons, hempty]
        simp [hpa]
      · rw [List.filter_cons]
        simp [hpa]
    · have hab2 : FaviconManager.gtIcon a b = false := by simpa using hab
      rw [show insertR FaviconManager.gtIcon a (b :: l)
            = b :: insertR FaviconManager.gtIcon a l from by
        simp [insertR, hab2]]
      rw [List.filter_cons, List.filter_cons,
        filter_insertR_key K a l hl]
      by_cases hpb : (FaviconManager.iconKey b == K) = true
      · simp [hpb]
      · simp [hpb]

theorem filter_foldl_key (K : Nat × Nat) :
    ∀ (l acc : List Icon),
      acc.Pairwise (fun u v => FaviconManager.gtIcon v u = false) →
      (List.foldl (fun acc a => insertR FaviconManager.gtIcon a acc) acc l).filter
          (fun x => FaviconManager.iconKey x == K) =
        acc.filter (fun x => FaviconManager.iconKey x == K) ++
          l.filter (fun x => FaviconManager.iconKey x == K)
  | [], acc, _ => by simp
  | a :: l, acc, h => by
    simp only [List.foldl_cons]
    rw [filter_foldl_key K l _
      (insertR_pairwise FaviconManager.gtIcon gtIcon_asym gtIcon_flip a acc h)]
    rw [filter_insertR_key K a acc h, List.filter_cons]
    by_cases hpa : (FaviconManager.iconKey a == K) = true
    · simp [hpa, List.append_assoc]
    · simp [hpa]

theorem rankIcons_filter_key (l : List Icon) (K : Nat × Nat) :
    (FaviconManager.rankIcons l).filter (fun x => FaviconManager.iconKey x == K) =
      l.filter (fun x => FaviconManager.iconKey x == K) := by
  simpa using filter_foldl_key K l [] (by simp)

/-! ## Lemmas about deduplication -/

theorem addIcon_nodup (acc : List Icon) (i : Icon) (h : acc.Nodup) :
    (FaviconManager.addIcon acc i).Nodup := by
  by_cases hc : i ∈ acc
  · simpa [FaviconManager.addIcon, hc] using h
  · simp only [FaviconManager.addIcon, hc, if_false]
    refine List.Nodup.append h (List.nodup_singleton i) ?_
    intro x hx hxi
    rw [List.mem_singleton] at hxi
    exact hc (hxi ▸ hx)

theorem foldl_addIcon_nodup :
    ∀ (l acc : List Icon), acc.Nodup → (l.foldl FaviconManager.addIcon acc).Nodup
  | [], _, h => h
  | i :: l, acc, h => by
    simp only [List.foldl_cons]
    exact foldl_addIcon_nodup l _ (addIcon_nodup acc i h)

theorem rankIcons_nodup (l : List Icon) (h : l.Nodup) :
    (FaviconManager.rankIcons l).Nodup :=
  (rankIcons_perm l).symm.nodup h

/-- A list sorted by the ranking relation splits into its square part
followed by its non-square part. -/
theorem sorted_square_split :
    ∀ m : List Icon, m.Pairwise (fun u v => FaviconManager.gtIcon v u = false) →
      ∃ s n, m = s ++ n ∧ (∀ i ∈ s, i.width = i.height) ∧
        (∀ i ∈ n, i.width ≠ i.height)
  | [], _ => ⟨[], [], rfl, by simp, by simp⟩
  | a :: m, h => by
    rcases List.pairwise_cons.mp h with ⟨ha, hm⟩
    by_cases hsq : a.width = a.height
    · rcases sorted_square_split m hm with ⟨s, n, hsplit, hs, hn⟩
      refine ⟨a :: s, n, by simp [hsplit], ?_, hn⟩
      intro i hi
      rcases List.mem_cons.mp hi with rfl | his
      · exact hsq
      · exact hs i his
    · refine ⟨[], a :: m, rfl, by simp, ?_⟩
      intro i hi
      rcases List.mem_cons.mp hi with rfl | him
      · exact hsq
      · intro hisq
        have h2 : FaviconManager.pairLT (FaviconManager.iconKey a)
            (FaviconManager.iconKey i) = false := ha i him
        rw [pairLT_false_iff] at h2
        apply h2
        left
        simp only [FaviconManager.iconKey]
        rw [if_neg hsq, if_pos hisq]
        omega

/-! ## Claim theorems -/

/-- C1: the ranking line of `FaviconManager.get` —
`sorted(icons, key=lambda i: (i.width == i.height, i.width + i.height), reverse=True)`
— produces a permutation of the collected icons (default icon plus
tag-derived icons) in which a square icon never follows a non-square one,
and among icons of equal squareness the larger `width + height` comes
first. -/
theorem c1_ranking_order (l : List Icon) :
    (FaviconManager.rankIcons l).Perm l ∧
    ∀ (i j : Nat) (hi : i < (FaviconManager.rankIcons l).length)
      (hj : j < (FaviconManager.rankIcons l).length), i < j →
      (((FaviconManager.rankIcons l).get ⟨j, hj⟩).width =
          ((FaviconManager.rankIcons l).get ⟨j, hj⟩).height →
        ((FaviconManager.rankIcons l).get ⟨i, hi⟩).width =
          ((FaviconManager.rankIcons l).get ⟨i, hi⟩).height) ∧
      ((((FaviconManager.rankIcons l).get ⟨i, hi⟩).width =
          ((FaviconManager.rankIcons l).get ⟨i, hi⟩).height ↔
        ((FaviconManager.rankIcons l).get ⟨j, hj⟩).width =
          ((FaviconManager.rankIcons l).get ⟨j, hj⟩).height) →
        ((FaviconManager.rankIcons l).get ⟨j, hj⟩).width +
            ((FaviconManager.rankIcons l).get ⟨j, hj⟩).height ≤
          ((FaviconManager.rankIcons l).get ⟨i, hi⟩).width +
            ((FaviconManager.rankIcons l).get ⟨i, hi⟩).height) := by
  refine ⟨rankIcons_perm l, ?_⟩
  intro i j hi hj hij
  have hr := List.pairwise_iff_get.mp (rankIcons_pairwise l) ⟨i, hi⟩ ⟨j, hj⟩ hij
  set a := (FaviconManager.rankIcons l).get ⟨i, hi⟩
  set b := (FaviconManager.rankIcons l).get ⟨j, hj⟩
  have hr2 : FaviconManager.pairLT (FaviconManager.iconKey a)
      (FaviconManager.iconKey b) = false := hr
  rw [pairLT_false_iff] at hr2
  simp only [FaviconManager.iconKey] at hr2
  constructor
  · intro hbsq
    by_contra hasq
    rw [if_neg hasq, if_pos hbsq] at hr2
    omega
  · intro hiff
    by_cases hasq : a.width = a.height
    · have hbsq : b.width = b.height := hiff.mp hasq
      rw [if_pos hasq, if_pos hbsq] at hr2
      omega
    · have hbsq : ¬b.width = b.height := fun hb3 => hasq (hiff.mpr hb3)
      rw [if_neg hasq, if_neg hbsq] at hr2
      omega

/-- Witness for C1 at the concrete list `iconsW` and positions `0 < 1`. -/
theorem c1_ranking_order_witness :
    (((FaviconManager.rankIcons iconsW).get ⟨1, by decide⟩).width =
        ((FaviconManager.rankIcons iconsW).get ⟨1, by decide⟩).height →
      ((FaviconManager.rankIcons iconsW).get ⟨0, by decide⟩).width =
        ((FaviconManager.rankIcons iconsW).get ⟨0, by decide⟩).height) ∧
    ((((FaviconManager.rankIcons iconsW).get ⟨0, by decide⟩).width =
        ((FaviconManager.rankIcons iconsW).get ⟨0, by decide⟩).height ↔
      ((FaviconManager.rankIcons iconsW).get ⟨1, by decide⟩).width =
        ((FaviconManager.rankIcons iconsW).get ⟨1, by decide⟩).height) →
      ((FaviconManager.rankIcons iconsW).get ⟨1, by decide⟩).width +
          ((FaviconManager.rankIcons iconsW).get ⟨1, by decide⟩).height ≤
        ((FaviconManager.rankIcons iconsW).get ⟨0, by decide⟩).width +
          ((FaviconManager.rankIcons iconsW).get ⟨0, by decide⟩).height) :=
  (c1_ranking_order iconsW).2 0 1 (by decide) (by decide) (by decide)

/-- C8 (code bug): the sort keys do not determine the relative order of two
distinct icons with equal squareness and equal `width + height` — both
orders of such a tie are fixed points of the ranking — and the stable sort
passes each key class of the collection through unchanged, so the output
order of ties is exactly the iteration order of the hash-ordered Python
`set` the code sorts, which per-process hash randomization varies between
runs. -/
theorem c8_tie_order_from_set_order :
    FaviconManager.iconKey iconTieA = FaviconManager.iconKey iconTieB ∧
    iconTieA ≠ iconTieB ∧
    FaviconManager.rankIcons [iconTieA, iconTieB] = [iconTieA, iconTieB] ∧
    FaviconManager.rankIcons [iconTieB, iconTieA] = [iconTieB, iconTieA] ∧
    (∀ (l : List Icon) (K : Nat × Nat),
      (FaviconManager.rankIcons l).filter
          (fun x => FaviconManager.iconKey x == K) =
        l.filter (fun x => FaviconManager.iconKey x == K)) :=
  ⟨rfl, by decide, rfl, rfl, rankIcons_filter_key⟩

/-- C9: a 0×0 icon — exactly what the default `/favicon.ico` probe
produces — satisfies the squareness test of the ranking key, so the ranked
output is the square icons (including any 0×0 one) followed by all
non-square icons; concretely, a 0×0 `ico` outranks a 300×150 tag icon. -/
theorem c9_zero_square_outranks :
    (∀ l : List Icon, ∃ s n, FaviconManager.rankIcons l = s ++ n ∧
        (∀ i ∈ s, i.width = i.height) ∧ (∀ i ∈ n, i.width ≠ i.height)) ∧
    FaviconManager.rankIcons
        [⟨"http://example.com/wide.png", 300, 150, "png"⟩,
         ⟨"http://example.com/favicon.ico", 0, 0, "ico"⟩] =
      [⟨"http://example.com/favicon.ico", 0, 0, "ico"⟩,
       ⟨"http://example.com/wide.png", 300, 150, "png"⟩] := by
  refine ⟨fun l => sorted_square_split _ (rankIcons_pairwise l), by decide⟩

/-- Witness for C9 at the concrete list `iconsW`. -/
theorem c9_zero_square_outranks_witness :
    ∃ s n, FaviconManager.rankIcons iconsW = s ++ n ∧
      (∀ i ∈ s, i.width = i.height) ∧ (∀ i ∈ n, i.width ≠ i.height) :=
  c9_zero_square_outranks.1 iconsW

/-- C2 counterexample: for `sizes="32x32 16x16\t8x8"` the code splits on the
space character only and selects token `"32x32"`, giving (32, 32), while the
claimed whitespace split yields three tokens whose descending lexicographic
maximum is `"8x8"`, giving (8, 8). -/
theorem c2_counterexample :
    FaviconManager.dimensions tagC2 = .ok (32, 32) ∧
    dimensionsSpec tagC2 = .ok (8, 8) :=
  ⟨rfl, rfl⟩

/-- C2 amended: with the `sizes` value split on the ASCII space character
(exactly `str.split(' ')`, empty tokens kept) instead of on whitespace, the
claimed dimension algorithm matches the code on every tag. -/
theorem c2_dimensions_amended (t : Tag) :
    FaviconManager.dimensions t = dimensionsSpecAmended t := rfl

/-- C5 (code bug): a tag whose `sizes` value has no `x` separator makes
`dimensions` raise `ValueError`; the exception aborts `tags` and the whole
resolution, losing the other well-formed candidate, instead of degrading
gracefully. -/
theorem c5_malformed_sizes_aborts :
    FaviconManager.dimensions tagC5 = .error .valueError ∧
    FaviconManager.tags "http://example.com" [tagGood, tagC5] = .error .valueError ∧
    (FaviconManager.get worldC5 "http://example.com" true kwNone).1 =
      .error .valueError :=
  ⟨rfl, rfl, rfl⟩

/-- C3 counterexample: with the page supplying one icon link and the
`favicon.ico` probe raising a network error, `get` propagates the probe's
error to the caller instead of returning the tag icon. -/
theorem c3_counterexample :
    FaviconManager.tags "http://example.com" [tagGood] =
      .ok [⟨"http://example.com/a.png", 64, 64, "png"⟩] ∧
    (FaviconManager.get worldC3 "http://example.com" true kwNone).1 =
      .error .netError :=
  ⟨rfl, rfl⟩

/-- C3 amended: a non-200 probe response is non-fatal (treated as no default
icon), but a network error raised by the probe propagates out of `default`
and aborts the whole resolution with that error. -/
theorem c3_probe_error_propagates :
    (∀ (w : World) (url : String) (kw : RequestKwargs) (hu : String) (s : Nat),
      w.head (FaviconManager.faviconUrlOf url) kw = .ok ⟨hu, s⟩ → s ≠ 200 →
      (FaviconManager.default w url kw).1 = .ok none) ∧
    (∀ (w : World) (url : String) (kw : RequestKwargs) (e : PyErr),
      w.head (FaviconManager.faviconUrlOf url) kw = .error e →
      (FaviconManager.default w url kw).1 = .error e) ∧
    (∀ (w : World) (url : String) (biggest : Bool) (kw : RequestKwargs)
      (resp : PageResponse) (e : PyErr),
      w.page url (FaviconManager.fillDefaults kw) = .ok resp →
      ¬(400 ≤ resp.status ∧ resp.status < 600) →
      (FaviconManager.default w resp.url (FaviconManager.fillDefaults kw)).1 =
        .error e →
      (FaviconManager.get w url biggest kw).1 = .error e) := by
  refine ⟨?_, ?_, ?_⟩
  · intro w url kw hu s hhead hs
    simp only [FaviconManager.default, hhead]
    simp [hs]
  · intro w url kw e hhead
    simp [FaviconManager.default, hhead]
  · intro w url biggest kw resp e hpage hst hd
    simp only [FaviconManager.get, hpage]
    rw [if_neg hst]
    simp only [hd]

/-- Witness for C3 amended: the three propagation facts at concrete worlds. -/
theorem c3_probe_error_propagates_witness :
    (FaviconManager.default worldOk "http://example.com" kwNone).1 = .ok none ∧
    (FaviconManager.default worldC3 "http://example.com" kwNone).1 =
      .error .netError ∧
    (FaviconManager.get worldC3 "http://example.com" true kwNone).1 =
      .error .netError :=
  ⟨c3_probe_error_propagates.1 worldOk "http://example.com" kwNone
      "http://example.com/favicon.ico" 404 rfl (by decide),
   c3_probe_error_propagates.2.1 worldC3 "http://example.com" kwNone .netError rfl,
   c3_probe_error_propagates.2.2 worldC3 "http://example.com" true kwNone
      ⟨"http://example.com", 200, [tagGood]⟩ .netError rfl (by decide) rfl⟩

/-- C4 counterexample: `validate_url` rejects `"foo"`, and in a world
reproducing the HTTP library's URL preparation, `get` on `"foo"` fails with
`MissingSchema` — not the claimed `InvalidURL` — raised by the library
before any network I/O (`validate_url` itself is never called). -/
theorem c4_counterexample :
    FaviconManager.validate_url "foo" = false ∧
    prepareUrlError "foo" = some .missingSchema ∧
    (FaviconManager.get worldReq "foo" true kwNone).1 = .error .missingSchema :=
  ⟨rfl, rfl, rfl⟩

/-- C4 amended: a syntactically invalid URL does fail before any network
I/O, but through the HTTP library's deterministic URL preparation, not
through `validate_url` (dead code) and not uniformly with `InvalidURL`: in
every realistic world a URL the preparation rejects makes `get` fail with
that library error — `MissingSchema` for a URL without a scheme,
`InvalidURL` for an `http` URL without a host. -/
theorem c4_library_validation :
    (∀ w : World, w.realistic →
      ∀ (url : String) (biggest : Bool) (kw : RequestKwargs) (e : PyErr),
        prepareUrlError url = some e →
        (FaviconManager.get w url biggest kw).1 = .error e) ∧
    prepareUrlError "foo" = some .missingSchema ∧
    prepareUrlError "http://" = some .invalidURL ∧
    prepareUrlError "http://example.com" = none ∧
    FaviconManager.validate_url "foo" = false ∧
    FaviconManager.validate_url "http://" = false := by
  refine ⟨?_, rfl, rfl, rfl, rfl, rfl⟩
  intro w hw url biggest kw e he
  have hp := (hw url (FaviconManager.fillDefaults kw) e he).1
  simp [FaviconManager.get, hp]

/-- Witness for C4 amended: `worldReq` is realistic and `get` on `"foo"`
fails with `MissingSchema`. -/
theorem c4_library_validation_witness :
    (FaviconManager.get worldReq "foo" true kwNone).1 = .error .missingSchema :=
  c4_library_validation.1 worldReq
    (by
      intro url kw e he
      constructor <;> simp [worldReq, he])
    "foo" true kwNone .missingSchema rfl

/-- C6: `Icon` equality is structural on all four fields, and the collecting
set deduplicates: the ranked list `get` returns in all-icons mode never
contains two icons with identical `(url, width, height, format)`. -/
theorem c6_icon_equality_dedup :
    (∀ a b : Icon, a = b ↔
      (a.url = b.url ∧ a.width = b.width ∧ a.height = b.height ∧
        a.format = b.format)) ∧
    (∀ (w : World) (url : String) (kw : RequestKwargs) (l : List Icon),
      (FaviconManager.get w url false kw).1 = .ok (.favicons l) → l.Nodup) := by
  constructor
  · intro a b
    constructor
    · rintro rfl
      exact ⟨rfl, rfl, rfl, rfl⟩
    · rintro ⟨h1, h2, h3, h4⟩
      cases a
      cases b
      simp_all
  · intro w url kw l h
    cases hp : w.page url (FaviconManager.fillDefaults kw) with
    | error e => simp [FaviconManager.get, hp] at h
    | ok resp =>
      by_cases hst : 400 ≤ resp.status ∧ resp.status < 600
      · simp [FaviconManager.get, hp, hst] at h
      · cases hd : (FaviconManager.default w resp.url
            (FaviconManager.fillDefaults kw)).1 with
        | error e => simp [FaviconManager.get, hp, hst, hd] at h
        | ok oi =>
          cases ht : FaviconManager.tags resp.url resp.soup with
          | error e => simp [FaviconManager.get, hp, hst, hd, ht] at h
          | ok li =>
            cases oi with
            | none =>
              have hnodup : (FaviconManager.rankIcons
                  (li.foldl FaviconManager.addIcon [])).Nodup :=
                rankIcons_nodup _ (foldl_addIcon_nodup li [] (by simp))
              simp [FaviconManager.get, hp, hst, hd, ht] at h
              cases hr : FaviconManager.rankIcons
                  (li.foldl FaviconManager.addIcon []) with
              | nil =>
                rw [hr] at h
                simp at h
              | cons top rest =>
                rw [hr] at h
                simp at h
                rw [← h]
                exact hr ▸ hnodup
            | some di =>
              have hnodup : (FaviconManager.rankIcons
                  (li.foldl FaviconManager.addIcon [di])).Nodup :=
                rankIcons_nodup _ (foldl_addIcon_nodup li [di] (by simp))
              simp [FaviconManager.get, hp, hst, hd, ht] at h
              cases hr : FaviconManager.rankIcons
                  (li.foldl FaviconManager.addIcon [di]) with
              | nil =>
                rw [hr] at h
                simp at h
              | cons top rest =>
                rw [hr] at h
                simp at h
                rw [← h]
                exact hr ▸ hnodup

/-- Witness for C6: a concrete run in which two distinct tags produce the
same icon tuple, which appears once in the (nodup) output. -/
theorem c6_icon_equality_dedup_witness :
    (FaviconManager.get worldC6 "http://example.com" false kwNone).1 =
      .ok (.favicons [⟨"http://example.com/a.png", 64, 64, "png"⟩]) ∧
    ([(⟨"http://example.com/a.png", 64, 64, "png"⟩ : Icon)]).Nodup :=
  ⟨rfl, c6_icon_equality_dedup.2 worldC6 "http://example.com" kwNone _ rfl⟩

/-- Requests issued by `FaviconManager.default`: exactly one `HEAD` for the
root `favicon.ico`, with the forwarded keyword arguments. -/
theorem default_trace (w : World) (u : String) (kw : RequestKwargs) :
    (FaviconManager.default w u kw).2 =
      [⟨.mHEAD, FaviconManager.faviconUrlOf u, kw⟩] := by
  cases hh : w.head (FaviconManager.faviconUrlOf u) kw <;>
    simp [FaviconManager.default, hh]

/-- Every request issued by `FaviconManager.get` carries the keyword
arguments after `setdefault` filling. -/
theorem get_trace_kwargs (w : World) (url : String) (biggest : Bool)
    (kw : RequestKwargs) (r : Request) :
    r ∈ (FaviconManager.get w url biggest kw).2 →
      r.kwargs = FaviconManager.fillDefaults kw := by
  intro hr
  cases hp : w.page url (FaviconManager.fillDefaults kw) with
  | error e =>
    simp [FaviconManager.get, hp] at hr
    rw [hr]
  | ok resp =>
    by_cases hst : 400 ≤ resp.status ∧ resp.status < 600
    · simp [FaviconManager.get, hp, hst] at hr
      rw [hr]
    · cases hd : (FaviconManager.default w resp.url
          (FaviconManager.fillDefaults kw)).1 with
      | error e =>
        simp [FaviconManager.get, hp, hst, hd, default_trace] at hr
        rcases hr with hr | hr <;> rw [hr]
      | ok oi =>
        cases ht : FaviconManager.tags resp.url resp.soup with
        | error e =>
          simp [FaviconManager.get, hp, hst, hd, ht, default_trace] at hr
          rcases hr with hr | hr <;> rw [hr]
        | ok li =>
          simp [FaviconManager.get, hp, hst, hd, ht, default_trace] at hr
          rcases hr with hr | hr <;> rw [hr]

/-- C10: `get` fills `verify=False`, the configured browser headers and
`allow_redirects=True` for any keyword the caller did not pass, and both the
page `GET` and the `favicon.ico` `HEAD` are issued with the same filled
keyword set; on a successful page fetch the trace is exactly those two
requests. -/
theorem c10_request_defaults :
    (∀ (w : World) (url : String) (biggest : Bool) (kw : RequestKwargs)
        (r : Request), r ∈ (FaviconManager.get w url biggest kw).2 →
      (kw.verify = none → r.kwargs.verify = some false) ∧
      (kw.headers = none → r.kwargs.headers = some FaviconManager.HEADERS) ∧
      (kw.allow_redirects = none →
        r.kwargs.allow_redirects = some true)) ∧
    (∀ (w : World) (url : String) (biggest : Bool) (kw : RequestKwargs)
        (resp : PageResponse),
      w.page url (FaviconManager.fillDefaults kw) = .ok resp →
      ¬(400 ≤ resp.status ∧ resp.status < 600) →
      (FaviconManager.get w url biggest kw).2 =
        [⟨.mGET, url, FaviconManager.fillDefaults kw⟩,
         ⟨.mHEAD, FaviconManager.faviconUrlOf resp.url,
          FaviconManager.fillDefaults kw⟩]) := by
  constructor
  · intro w url biggest kw r hr
    have hk := get_trace_kwargs w url biggest kw r hr
    refine ⟨?_, ?_, ?_⟩
    · intro hv
      rw [hk]
      simp [FaviconManager.fillDefaults, hv]
    · intro hh
      rw [hk]
      simp [FaviconManager.fillDefaults, hh]
    · intro ha
      rw [hk]
      simp [FaviconManager.fillDefaults, ha]
  · intro w url biggest kw resp hpage hst
    cases hd : (FaviconManager.default w resp.url
        (FaviconManager.fillDefaults kw)).1 with
    | error e =>
      simp [FaviconManager.get, hpage, hst, hd, default_trace]
    | ok oi =>
      cases ht : FaviconManager.tags resp.url resp.soup with
      | error e =>
        simp [FaviconManager.get, hpage, hst, hd, ht, default_trace]
      | ok li =>
        simp [FaviconManager.get, hpage, hst, hd, ht, default_trace]

/-- Witness for C10: the concrete trace of a successful run, with
`verify=False` filled in. -/
theorem c10_request_defaults_witness :
    (FaviconManager.get worldOk "http://example.com" true kwNone).2 =
      [⟨.mGET, "http://example.com", FaviconManager.fillDefaults kwNone⟩,
       ⟨.mHEAD, "http://example.com/favicon.ico",
        FaviconManager.fillDefaults kwNone⟩] ∧
    (⟨.mGET, "http://example.com",
        FaviconManager.fillDefaults kwNone⟩ : Request).kwargs.verify =
      some false :=
  ⟨c10_request_defaults.2 worldOk "http://example.com" true kwNone
      ⟨"http://example.com", 200, [tagGood]⟩ rfl (by decide),
   (c10_request_defaults.1 worldOk "http://example.com" true kwNone
      ⟨.mGET, "http://example.com", FaviconManager.fillDefaults kwNone⟩
      (by rw [c10_request_defaults.2 worldOk "http://example.com" true kwNone
          ⟨"http://example.com", 200, [tagGood]⟩ rfl (by decide)]
          exact List.mem_cons_self _ _)).1 rfl⟩

/-! ## URL resolution lemmas -/

/-- Unfolding of `==` on cons cells of character lists. -/
theorem cons_beq_cons (a b : Char) (as bs : List Char) :
    ((a :: as : List Char) == b :: bs) = (a == b && as == bs) := rfl

/-- A URL starting with `//` parses with an empty scheme: any colon in it is
preceded by the leading slashes, which neither spell `http` nor are scheme
characters. -/
theorem rawSplit_scheme_of_dslash (href : String)
    (h : isPre ['/', '/'] href.data = true) : (rawSplit href).scheme = "" := by
  obtain ⟨t, ht⟩ : ∃ t, href.data = '/' :: '/' :: t := by
    cases hd : href.data with
    | nil => rw [hd] at h; simp [isPre] at h
    | cons c cs =>
      cases cs with
      | nil => rw [hd] at h; simp [isPre] at h
      | cons c2 cs2 =>
        rw [hd] at h
        simp [isPre] at h
        obtain ⟨h1, h2⟩ := h
        subst h1
        subst h2
        exact ⟨cs2, rfl⟩
  unfold rawSplit
  rw [ht]
  cases hidx : idxOf? ':' t with
  | none =>
    simp [idxOf?, hidx]
    rfl
  | some i =>
    simp [idxOf?, hidx, schemeChar, cons_beq_cons]
    rfl

/-- `urlsplit` with a default scheme on a URL that carries none. -/
theorem urlsplitM_of_scheme_empty (u s : String) (h : (rawSplit u).scheme = "") :
    urlsplitM u s = { rawSplit u with scheme := s } := by
  unfold urlsplitM
  rw [if_pos (by simp [h])]

/-- `urlsplit` with a default scheme on a URL that carries its own. -/
theorem urlsplitM_of_scheme_nonempty (u s : String)
    (h : (rawSplit u).scheme ≠ "") : urlsplitM u s = rawSplit u := by
  unfold urlsplitM
  rw [if_neg (by simpa using h)]

/-- Prepending a non-empty scheme to an unparsed URL. -/
theorem urlunsplitM_scheme (s n p q f : String) (hs : s ≠ "") :
    urlunsplitM ⟨s, n, p, q, f⟩ = s ++ ":" ++ urlunsplitM ⟨"", n, p, q, f⟩ := by
  have hs2 : (s != "") = true := by simpa using hs
  unfold urlunsplitM
  simp only [hs2, if_true]
  by_cases hq : (q != "") = true <;> by_cases hf : (f != "") = true <;>
    simp [hq, hf, String.append_assoc]

/-- When `is_absolute` returns (rather than raises), the underlying
`urlsplit` of its argument does not raise either. -/
theorem rawSplitE_ok_of_is_absoluteE (u : String) (b : Bool)
    (h : FaviconManager.is_absoluteE u = .ok b) : rawSplitE u = .ok (rawSplit u) := by
  unfold FaviconManager.is_absoluteE at h
  unfold rawSplitE at h ⊢
  by_cases hb : badBrackets (rawSplit u) = true
  · rw [if_pos hb] at h
    simp at h
  · rw [if_neg hb] at h ⊢

/-- A non-raising `urlsplit` with a default scheme. -/
theorem urlsplitEM_ok (u s : String) (h : rawSplitE u = .ok (rawSplit u)) :
    urlsplitEM u s = .ok (urlsplitM u s) := by
  unfold urlsplitEM urlsplitM
  rw [h]

/-- A non-raising `urljoin`. -/
theorem urljoinE_ok (base url : String)
    (hb : rawSplitE base = .ok (rawSplit base))
    (hu : rawSplitE url = .ok (rawSplit url)) :
    urljoinE base url = .ok (urljoinM base url) := by
  by_cases h1 : (base == "") = true
  · have hb0 : base = "" := by simpa using h1
    subst hb0
    simp [urljoinE, urljoinM]
  · by_cases h2 : (url == "") = true
    · have hu0 : url = "" := by simpa using h2
      subst hu0
      simp [urljoinE, urljoinM, h1]
    · unfold urljoinE
      rw [if_neg h1, if_neg h2, hb, urlsplitEM_ok url _ hu]

/-- C7: resolution of a matched tag's candidate URL.  When the parses raise
no `ValueError`: an absolute href carrying its own scheme is used as-is when
it is in parse normal form (the equality hypotheses say the URL reparses and
unparses to itself), a scheme-relative `//host/path` href inherits the
page's scheme, and any other href is joined onto the page's final URL.  A
`ValueError` raised while parsing the href (`Invalid IPv6 URL`) propagates
and aborts the resolution.  A first colon followed only by digits does not
start a scheme (CPython 3.7), so `tel:123` is treated as relative and
joined.  Concretely, `//cdn.example.com/favicon.png` on a page fetched via
`https://example.com` resolves to `https://cdn.example.com/favicon.png`. -/
theorem c7_url_resolution :
    (∀ page href : String, FaviconManager.is_absoluteE href = .ok true →
      rawSplitE page = .ok (rawSplit page) →
      (rawSplit href).scheme ≠ "" →
      urlunsplitM (rawSplit href) = href →
      FaviconManager.resolveCandidate page href = .ok href) ∧
    (∀ page href : String, FaviconManager.is_absoluteE href = .ok true →
      rawSplitE page = .ok (rawSplit page) →
      isPre ['/', '/'] href.data = true →
      urlunsplitM (rawSplit href) = href →
      FaviconManager.resolveCandidate page href =
        .ok (if (rawSplit page).scheme = "" then href
             else (rawSplit page).scheme ++ ":" ++ href)) ∧
    (∀ page href : String, FaviconManager.is_absoluteE href = .ok false →
      rawSplitE page = .ok (rawSplit page) →
      rawSplitE (urljoinM page href) = .ok (rawSplit (urljoinM page href)) →
      urlunsplitM (urlsplitM (urljoinM page href) (rawSplit page).scheme) =
        urljoinM page href →
      FaviconManager.resolveCandidate page href = .ok (urljoinM page href)) ∧
    (∀ (page href : String) (e : PyErr), FaviconManager.is_absoluteE href = .error e →
      FaviconManager.resolveCandidate page href = .error e) ∧
    FaviconManager.resolveCandidate "http://e.com/" "http://[::1/x" =
      .error .valueError ∧
    FaviconManager.is_absolute "tel:123" = false ∧
    (rawSplit "tel:123").scheme = "" ∧
    FaviconManager.resolveCandidate "http://e.com/a/" "tel:123" =
      .ok "http://e.com/a/tel:123" ∧
    FaviconManager.resolveCandidate "https://example.com"
        "//cdn.example.com/favicon.png" =
      .ok "https://cdn.example.com/favicon.png" := by
  refine ⟨?_, ?_, ?_, ?_, rfl, rfl, rfl, rfl, rfl⟩
  · intro page href habs hpage hsch hrt
    have hre := rawSplitE_ok_of_is_absoluteE href true habs
    simp only [FaviconManager.resolveCandidate, FaviconManager.parseCandidate,
      habs, hpage, if_true, urlsplitEM_ok href _ hre]
    rw [urlsplitM_of_scheme_nonempty href _ hsch, hrt]
  · intro page href habs hpage hds hrt
    have hre := rawSplitE_ok_of_is_absoluteE href true habs
    have h0 : (rawSplit href).scheme = "" := rawSplit_scheme_of_dslash href hds
    simp only [FaviconManager.resolveCandidate, FaviconManager.parseCandidate,
      habs, hpage, if_true, urlsplitEM_ok href _ hre]
    rw [urlsplitM_of_scheme_empty href _ h0]
    by_cases hps : (rawSplit page).scheme = ""
    · rw [if_pos hps, hps]
      rw [show ({ rawSplit href with scheme := "" } : UrlSplit) = rawSplit href by
        cases hsp : rawSplit href
        simp_all]
      rw [hrt]
    · rw [if_neg hps]
      cases hsp : rawSplit href with
      | mk sc n p q f =>
        have hsc : sc = "" := by
          rw [hsp] at h0
          exact h0
        subst hsc
        rw [show ({ (⟨"", n, p, q, f⟩ : UrlSplit) with
              scheme := (rawSplit page).scheme } : UrlSplit) =
            ⟨(rawSplit page).scheme, n, p, q, f⟩ from rfl]
        rw [urlunsplitM_scheme _ n p q f hps]
        have hneq : urlunsplitM ⟨"", n, p, q, f⟩ = href := by
          rw [← hsp]
          exact hrt
        rw [hneq]
  · intro page href habs hpage hjoin hrt
    have hre := rawSplitE_ok_of_is_absoluteE href false habs
    have hj := urljoinE_ok page href hpage hre
    simp [FaviconManager.resolveCandidate, FaviconManager.parseCandidate,
      habs, hpage, hj, urlsplitEM_ok (urljoinM page href) _ hjoin, hrt]
  · intro page href e herr
    simp only [FaviconManager.resolveCandidate, FaviconManager.parseCandidate,
      herr]

/-- C7 counterexample: the absolute, non-scheme-relative href
`http://host/path?` is not used as-is — the code reparses and unparses every
candidate, and `urlunsplit` drops the empty query marker. -/
theorem c7_counterexample :
    FaviconManager.is_absolute "http://host/path?" = true ∧
    (rawSplit "http://host/path?").scheme = "http" ∧
    FaviconManager.resolveCandidate "https://example.com" "http://host/path?" =
      .ok "http://host/path" :=
  ⟨rfl, rfl, rfl⟩

/-- Witness for C7: the three resolution modes and the raising case at
concrete URLs. -/
theorem c7_url_resolution_witness :
    FaviconManager.resolveCandidate "https://page.example"
        "http://assets.example/icon.png" = .ok "http://assets.example/icon.png" ∧
    FaviconManager.resolveCandidate "https://example.com"
        "//cdn.example.com/favicon.png" =
      .ok (if (rawSplit "https://example.com").scheme = ""
           then "//cdn.example.com/favicon.png"
           else (rawSplit "https://example.com").scheme ++ ":" ++
            "//cdn.example.com/favicon.png") ∧
    FaviconManager.resolveCandidate "http://e.com/a/" "icon.png" =
      .ok (urljoinM "http://e.com/a/" "icon.png") ∧
    FaviconManager.resolveCandidate "http://e.com/" "http://[::1/x" =
      .error .valueError :=
  ⟨c7_url_resolution.1 "https://page.example" "http://assets.example/icon.png"
      rfl rfl (by decide) rfl,
   c7_url_resolution.2.1 "https://example.com" "//cdn.example.com/favicon.png"
      rfl rfl (by decide) rfl,
   c7_url_resolution.2.2.1 "http://e.com/a/" "icon.png" rfl rfl rfl rfl,
   c7_url_resolution.2.2.2.1 "http://e.com/" "http://[::1/x" .valueError rfl⟩

end Favicon
